import Mathlib

/-!
Shallow embedding of the RS05 CAN tools (src/main.py and src/move.py):
the 29-bit extended-identifier codec, the discovery-scan receive loop of
both tools, and the command sequencer (angle command, velocity limit,
address reassignment), together with theorems about their behaviour.

Python floats are modelled as exact rationals (ℚ); the IEEE-754 byte
encoding of a float payload is kept symbolic in the payload type, since
the claims are about which logical value a frame carries, not about the
bit pattern of the encoding.
-/

namespace RS05

/-! ### Protocol constants (main.py lines 8-11, move.py lines 38-50) -/

def COMM_GET_ID : Nat := 0x00

def COMM_RUN_EN : Nat := 0x03

def COMM_SET_ID : Nat := 0x07

def COMM_WRITE_ONE : Nat := 0x12

def RESP_MARKER : Nat := 0xFE

def MASTER_ID : Nat := 0xFD

def IDX_runmode : Nat := 0x7005

def IDX_loc_ref : Nat := 0x7016

def IDX_limit_spd : Nat := 0x7017

/-- Exact rational value of the IEEE-754 double that Python's `math.pi`
denotes, used by move.py line 177. -/
def math_pi : ℚ := 884279719003555 / 281474976710656

/-! ### Frame codec -/

/-- move.py lines 33-35 / main.py lines 15-17:
`return ((mode & 0x1F) << 24) | (data16 << 8) | id8`.
Only `mode` is masked; `data16` and `id8` are used as given. -/
def build_ext_id (mode data16 id8 : Nat) : Nat :=
  ((mode &&& 0x1F) <<< 24) ||| (data16 <<< 8) ||| id8

/-- Inbound mode extraction as inlined in scan_ids (main.py line 89, move.py line 155). -/
def decode_mode (extid : Nat) : Nat := (extid >>> 24) &&& 0x1F

/-- Inbound data16 extraction (main.py line 90, move.py line 156). -/
def decode_data16 (extid : Nat) : Nat := (extid >>> 8) &&& 0xFFFF

/-- Inbound id8 extraction (main.py line 91, move.py line 157). -/
def decode_id8 (extid : Nat) : Nat := extid &&& 0xFF

/-- The three identifier fields extracted together, in the order
(mode, data16, id8), as the spec's `decode_identifier`. -/
def decode_identifier (extid : Nat) : Nat × Nat × Nat :=
  (decode_mode extid, decode_data16 extid, decode_id8 extid)

/-! ### Arithmetic bridge: the bit-field layout as plain arithmetic -/

lemma and_thirtyone (x : Nat) : x &&& 0x1F = x % 32 := by
  simpa using Nat.and_pow_two_sub_one_eq_mod x 5

lemma shiftLeft_lor_eq_add (a b k : Nat) (hb : b < 2 ^ k) :
    (a <<< k) ||| b = a * 2 ^ k + b := by
  rw [Nat.shiftLeft_eq, Nat.mul_comm a (2 ^ k), ← Nat.mul_add_lt_is_or hb]

lemma build_ext_id_eq_add (m d i : Nat) (hd : d < 65536) (hi : i < 256) :
    build_ext_id m d i = m % 32 * 16777216 + d * 256 + i := by
  unfold build_ext_id
  rw [and_thirtyone]
  have hd8 : d <<< 8 = d * 2 ^ 8 := Nat.shiftLeft_eq d 8
  have hb1 : d <<< 8 < 2 ^ 24 := by rw [hd8]; norm_num; omega
  have h1 : (m % 32) <<< 24 ||| d <<< 8 = m % 32 * 2 ^ 24 + d <<< 8 :=
    shiftLeft_lor_eq_add (m % 32) (d <<< 8) 24 hb1
  rw [h1, hd8]
  have h2 : m % 32 * 2 ^ 24 + d * 2 ^ 8 = (m % 32 * 2 ^ 16 + d) * 2 ^ 8 := by ring
  rw [h2, ← Nat.shiftLeft_eq]
  rw [shiftLeft_lor_eq_add (m % 32 * 2 ^ 16 + d) i 8 (by omega)]
  norm_num
  omega

lemma decode_mode_build (m d i : Nat) (hd : d < 65536) (hi : i < 256) :
    decode_mode (build_ext_id m d i) = m % 32 := by
  have h := build_ext_id_eq_add m d i hd hi
  unfold decode_mode
  rw [Nat.shiftRight_eq_div_pow, and_thirtyone]
  norm_num
  omega

lemma decode_data16_build (m d i : Nat) (hd : d < 65536) (hi : i < 256) :
    decode_data16 (build_ext_id m d i) = d := by
  have h := build_ext_id_eq_add m d i hd hi
  unfold decode_data16
  rw [Nat.shiftRight_eq_div_pow]
  have h16 : ∀ x : Nat, x &&& 0xFFFF = x % 65536 := fun x => by
    simpa using Nat.and_pow_two_sub_one_eq_mod x 16
  rw [h16]
  norm_num
  omega

lemma decode_id8_build (m d i : Nat) (hd : d < 65536) (hi : i < 256) :
    decode_id8 (build_ext_id m d i) = i := by
  have h := build_ext_id_eq_add m d i hd hi
  unfold decode_id8
  have h8 : ∀ x : Nat, x &&& 0xFF = x % 256 := fun x => by
    simpa using Nat.and_pow_two_sub_one_eq_mod x 8
  rw [h8]
  omega

lemma build_ext_id_lt (m d i : Nat) (hd : d < 65536) (hi : i < 256) :
    build_ext_id m d i < 2 ^ 29 := by
  have h := build_ext_id_eq_add m d i hd hi
  have hm : m % 32 < 32 := Nat.mod_lt m (by omega)
  norm_num
  omega

/-! ### Frames -/

/-- Payload of an outbound 8-byte frame. `zeros8` is the all-zero payload
`[0]*8`. `writeU8 lo hi val` is the WRITE_ONE byte payload
`[lo, hi, 0, 0, val, 0, 0, 0]` built by write_param_u8
(move.py lines 100-118). `writeF lo hi val` is the WRITE_ONE float
payload `[lo, hi, 0, 0]` followed by the 4 little-endian IEEE-754 bytes
of `val` built by write_param_f (move.py lines 81-98); the 4 float bytes
are kept symbolic as the rational value they encode. -/
inductive Payload where
  | zeros8 : Payload
  | writeU8 (lo hi val : Nat) : Payload
  | writeF (lo hi : Nat) (val : ℚ) : Payload
  deriving DecidableEq

/-- Logical parameter index carried in payload bytes 0-1 of a WRITE_ONE
frame, reassembled little-endian as the firmware reads it. -/
def Payload.index : Payload → Option Nat
  | .zeros8 => none
  | .writeU8 lo hi _ => some (lo ||| (hi <<< 8))
  | .writeF lo hi _ => some (lo ||| (hi <<< 8))

/-- Byte value carried in payload byte 4 of a WRITE_ONE byte frame. -/
def Payload.u8val : Payload → Option Nat
  | .writeU8 _ _ v => some v
  | _ => none

/-- Rational value encoded in payload bytes 4-7 of a WRITE_ONE float frame. -/
def Payload.fval : Payload → Option ℚ
  | .writeF _ _ v => some v
  | _ => none

/-- Outbound CAN message, mirroring the can.Message fields the tools set. -/
structure TxMsg where
  arbitration_id : Nat
  is_extended_id : Bool
  dlc : Nat
  data : Payload
  deriving DecidableEq

/-- Frame built by send_get_id (main.py lines 19-36) and by the probe
loop of move.py scan_ids (lines 126-136): data16 is `(MASTER_ID << 8) | 0x00`. -/
def get_id_frame (target_can_id : Nat) : TxMsg :=
  { arbitration_id := build_ext_id COMM_GET_ID ((MASTER_ID <<< 8) ||| 0x00) target_can_id
    is_extended_id := true
    dlc := 8
    data := .zeros8 }

/-- Frame built by send_set_id (main.py lines 38-56):
data16 is `(new_id << 8) | MASTER_ID`, id8 is the current id. -/
def set_id_frame (current_id new_id : Nat) : TxMsg :=
  { arbitration_id := build_ext_id COMM_SET_ID ((new_id <<< 8) ||| MASTER_ID) current_id
    is_extended_id := true
    dlc := 8
    data := .zeros8 }

/-- Frame built by send_enable (move.py lines 70-79). -/
def enable_frame (id : Nat) : TxMsg :=
  { arbitration_id := build_ext_id COMM_RUN_EN ((MASTER_ID <<< 8) ||| 0x00) id
    is_extended_id := true
    dlc := 8
    data := .zeros8 }

/-- Frame built by write_param_f (move.py lines 81-98):
payload `[index & 0xFF, (index >> 8) & 0xFF, 0, 0]` ++ little-endian float bytes. -/
def write_param_f_frame (index : Nat) (val : ℚ) (id : Nat) : TxMsg :=
  { arbitration_id := build_ext_id COMM_WRITE_ONE ((MASTER_ID <<< 8) ||| 0x00) id
    is_extended_id := true
    dlc := 8
    data := .writeF (index &&& 0xFF) ((index >>> 8) &&& 0xFF) val }

/-- Frame built by write_param_u8 (move.py lines 100-118):
payload `[index & 0xFF, (index >> 8) & 0xFF, 0, 0, val & 0xFF, 0, 0, 0]`. -/
def write_param_u8_frame (index val id : Nat) : TxMsg :=
  { arbitration_id := build_ext_id COMM_WRITE_ONE ((MASTER_ID <<< 8) ||| 0x00) id
    is_extended_id := true
    dlc := 8
    data := .writeU8 (index &&& 0xFF) ((index >>> 8) &&& 0xFF) (val &&& 0xFF) }

/-! ### Discovery scan: receive loop -/

/-- Inbound CAN message fields inspected by the scan loops. A receive
timeout (`bus.recv` returning None) is modelled as `none` in the receive
trace, so a scan window is a `List (Option RxMsg)`. -/
structure RxMsg where
  arbitration_id : Nat
  is_extended_id : Bool
  dlc : Nat
  deriving DecidableEq

/-- State of move.py scan_ids: the session global current_id together
with the window-local found_this_scan flag (move.py lines 142, 159-162). -/
structure MoveScanState where
  current_id : Nat
  found_this_scan : Bool
  deriving DecidableEq

/-- Body of one iteration of the receive loop of move.py scan_ids
(lines 144-165): timeouts and frames that are not extended or not 8
bytes are skipped; a frame whose decoded mode is COMM_GET_ID and whose
decoded id8 is RESP_MARKER overwrites current_id with `data16 & 0xFF`
and sets found_this_scan. -/
def scan_step_move (st : MoveScanState) (rx : Option RxMsg) : MoveScanState :=
  match rx with
  | none => st
  | some m =>
    if !m.is_extended_id || m.dlc != 8 then st
    else
      let extid := m.arbitration_id
      let mode := (extid >>> 24) &&& 0x1F
      let data16 := (extid >>> 8) &&& 0xFFFF
      let id8 := extid &&& 0xFF
      if mode == COMM_GET_ID && id8 == RESP_MARKER then
        { current_id := data16 &&& 0xFF, found_this_scan := true }
      else st

/-- Receive phase of move.py scan_ids (lines 140-170): the loop body
folded over the receive trace of one window, starting from the session's
current_id and a cleared found flag. -/
def scan_ids_move (current_id : Nat) (rxs : List (Option RxMsg)) : MoveScanState :=
  rxs.foldl scan_step_move ⟨current_id, false⟩

/-- Body of one iteration of the receive loop of main.py scan_ids
(lines 75-99), updating the session global last_found_id. -/
def scan_step_main (last_found_id : Nat) (rx : Option RxMsg) : Nat :=
  match rx with
  | none => last_found_id
  | some m =>
    if !m.is_extended_id then last_found_id
    else if m.dlc != 8 then last_found_id
    else
      let extid := m.arbitration_id
      let mode := (extid >>> 24) &&& 0x1F
      let data16 := (extid >>> 8) &&& 0xFFFF
      let id8 := extid &&& 0xFF
      if mode == COMM_GET_ID && id8 == RESP_MARKER then data16 &&& 0x00FF
      else last_found_id

/-- Receive phase of main.py scan_ids (lines 58-102): the session global
last_found_id is reset to the sentinel 0xFF before the window opens
(line 69), discarding the value it held before the scan, and the loop
body is folded over the receive trace. -/
def scan_ids_main (_last_found_id_before : Nat) (rxs : List (Option RxMsg)) : Nat :=
  rxs.foldl scan_step_main 0xFF

/-- main.py lines 101-102: the scan prints the not-found message iff the
post-window last_found_id equals the sentinel. -/
def main_reports_not_found (before : Nat) (rxs : List (Option RxMsg)) : Bool :=
  scan_ids_main before rxs == 0xFF

/-- Classification of an inbound frame as a valid GET_ID reply: extended
identifier, 8-byte payload, decoded mode COMM_GET_ID and decoded id8
equal to RESP_MARKER (main.py lines 83-93, move.py lines 151-159). -/
def is_valid_get_id_reply (m : RxMsg) : Bool :=
  m.is_extended_id && m.dlc == 8
    && decode_mode m.arbitration_id == COMM_GET_ID
    && decode_id8 m.arbitration_id == RESP_MARKER

/-- Discovered device address of a qualifying reply: the low byte of the
decoded data16 field (main.py line 94, move.py line 160). -/
def reply_addr (m : RxMsg) : Nat := decode_data16 m.arbitration_id &&& 0xFF

/-- Address contributed to the scan by one receive result, if any. -/
def qual_addr : Option RxMsg → Option Nat
  | none => none
  | some m => if is_valid_get_id_reply m then some (reply_addr m) else none

/-! ### Characterisation of the scan loop bodies -/

lemma scan_step_move_eq (st : MoveScanState) (rx : Option RxMsg) :
    scan_step_move st rx = (qual_addr rx).elim st fun a => ⟨a, true⟩ := by
  cases rx with
  | none => rfl
  | some m =>
    simp only [scan_step_move, qual_addr, is_valid_get_id_reply, reply_addr,
      decode_mode, decode_data16, decode_id8]
    by_cases hext : m.is_extended_id <;> by_cases hdlc : m.dlc = 8 <;>
      by_cases hmode : (m.arbitration_id >>> 24) &&& 0x1F = COMM_GET_ID <;>
      by_cases hid8 : m.arbitration_id &&& 0xFF = RESP_MARKER <;>
      simp [hext, hdlc, hmode, hid8]

lemma scan_step_main_eq (v : Nat) (rx : Option RxMsg) :
    scan_step_main v rx = (qual_addr rx).getD v := by
  cases rx with
  | none => rfl
  | some m =>
    simp only [scan_step_main, qual_addr, is_valid_get_id_reply, reply_addr,
      decode_mode, decode_data16, decode_id8]
    by_cases hext : m.is_extended_id <;> by_cases hdlc : m.dlc = 8 <;>
      by_cases hmode : (m.arbitration_id >>> 24) &&& 0x1F = COMM_GET_ID <;>
      by_cases hid8 : m.arbitration_id &&& 0xFF = RESP_MARKER <;>
      simp [hext, hdlc, hmode, hid8]

lemma scan_fold_move (rxs : List (Option RxMsg)) (c : Nat) (b : Bool) :
    rxs.foldl scan_step_move ⟨c, b⟩ =
      ⟨(rxs.filterMap qual_addr).getLastD c,
        b || !(rxs.filterMap qual_addr).isEmpty⟩ := by
  induction rxs generalizing c b with
  | nil => simp
  | cons x xs ih =>
    rw [List.foldl_cons, scan_step_move_eq]
    cases hq : qual_addr x with
    | none => simp [List.filterMap_cons, hq, ih]
    | some a =>
      simp only [Option.elim, ih, List.filterMap_cons, hq]
      rw [List.getLastD_cons]
      simp

lemma scan_fold_main (rxs : List (Option RxMsg)) (v : Nat) :
    rxs.foldl scan_step_main v = (rxs.filterMap qual_addr).getLastD v := by
  induction rxs generalizing v with
  | nil => simp
  | cons x xs ih =>
    rw [List.foldl_cons, scan_step_main_eq]
    cases hq : qual_addr x with
    | none => simp [List.filterMap_cons, hq, ih]
    | some a =>
      simp only [Option.getD, ih, List.filterMap_cons, hq]
      rw [List.getLastD_cons]

/-! ### Session state and the command sequencer -/

/-- Session globals of move.py (lines 49-50): the currently selected
device id and the cached CSP velocity limit. -/
structure Session where
  current_id : Nat
  limit_spd : ℚ
  deriving DecidableEq

/-- Observable effect of a command: a frame handed to the transport, a
fixed delay in milliseconds, or the start of a fresh discovery scan. -/
inductive Event where
  | send (m : TxMsg) : Event
  | sleepMs (ms : ℚ) : Event
  | rescan : Event
  deriving DecidableEq

/-- Frames handed to the transport within a trace, in order. -/
def sent_frames (tr : List Event) : List TxMsg :=
  tr.filterMap fun e =>
    match e with
    | .send m => some m
    | _ => none

/-- csp_move_deg (move.py lines 174-195). `outcome k` is the transport
result of the k-th send attempt of the sequence. The Python `ok &= send(...)`
pattern evaluates every send regardless of earlier results, so the trace
does not depend on the outcomes and the aggregate result is the
conjunction of the four of them. -/
def csp_move_deg (outcome : Nat → Bool) (s : Session) (deg : ℚ) : List Event × Bool :=
  let rad := deg * math_pi / 180
  let f1 := write_param_u8_frame IDX_runmode 5 s.current_id
  let f2 := write_param_f_frame IDX_limit_spd s.limit_spd s.current_id
  let f3 := enable_frame s.current_id
  let f4 := write_param_f_frame IDX_loc_ref rad s.current_id
  ([.send f1, .send f2, .sleepMs 5, .send f3, .sleepMs 5, .send f4],
    outcome 0 && outcome 1 && outcome 2 && outcome 3)

/-- The L command of move.py (lines 252-262): clamp a negative value to
0, send one WRITE_ONE float frame to IDX_limit_spd on the current id,
and store the clamped value into the session exactly when the transport
send succeeded. Returns the new session, the frames sent, and the
reported outcome. -/
def set_velocity_limit (sendOk : Bool) (s : Session) (v : ℚ) :
    Session × List TxMsg × Bool :=
  let v2 := if v < 0 then 0 else v
  let f := write_param_f_frame IDX_limit_spd v2 s.current_id
  if sendOk then ({ s with limit_spd := v2 }, [f], true)
  else (s, [f], false)

/-- Outcome reported by the S command of main.py. -/
inductive SetIdOutcome where
  | rangeError : SetIdOutcome
  | needScanError : SetIdOutcome
  | sendFailed : SetIdOutcome
  | ok : SetIdOutcome
  deriving DecidableEq

/-- The S command of main.py (lines 162-183): validate the new address
(`0 <= new_id <= 0x7F`), require a previously discovered id
(last_found_id not the sentinel), then send one SET_ID frame; on
transport success sleep 50 ms and run a fresh scan. `new_id` is an
integer because the hex argument may parse as negative. -/
def set_device_address (sendOk : Bool) (last_found_id : Nat) (new_id : Int) :
    SetIdOutcome × List Event :=
  if new_id < 0 ∨ 0x7F < new_id then (.rangeError, [])
  else if last_found_id = 0xFF then (.needScanError, [])
  else
    let f := set_id_frame last_found_id new_id.toNat
    if sendOk then (.ok, [.send f, .sleepMs 50, .rescan])
    else (.sendFailed, [.send f])

/-! ### Helper: decoded fields of well-formed outbound identifiers -/

lemma decode_frame_fields (mode d id : Nat) (hm : mode < 32) (hd : d < 65536)
    (hid : id < 256) :
    decode_mode (build_ext_id mode d id) = mode
      ∧ decode_data16 (build_ext_id mode d id) = d
      ∧ decode_id8 (build_ext_id mode d id) = id := by
  refine ⟨?_, decode_data16_build _ _ _ hd hid, decode_id8_build _ _ _ hd hid⟩
  rw [decode_mode_build _ _ _ hd hid, Nat.mod_eq_of_lt hm]

/-! ### Claim C4 -/

/-- C4: for every mode in [0,31], data16 in [0,65535] and id8 in [0,255],
decoding the identifier produced by build_ext_id with the inverse bit
extractions returns exactly the original triple, and the encoded value
fits in 29 bits. -/
theorem c4_encode_decode_roundtrip (mode data16 id8 : Nat)
    (hm : mode ≤ 31) (hd : data16 ≤ 65535) (hi : id8 ≤ 255) :
    decode_identifier (build_ext_id mode data16 id8) = (mode, data16, id8)
      ∧ build_ext_id mode data16 id8 < 2 ^ 29 := by
  have hd2 : data16 < 65536 := by omega
  have hi2 : id8 < 256 := by omega
  refine ⟨?_, build_ext_id_lt _ _ _ hd2 hi2⟩
  unfold decode_identifier
  rw [decode_mode_build _ _ _ hd2 hi2, decode_data16_build _ _ _ hd2 hi2,
    decode_id8_build _ _ _ hd2 hi2, Nat.mod_eq_of_lt (by omega)]

theorem c4_witness :
    decode_identifier (build_ext_id 0x12 0xFD00 0x35) = (0x12, 0xFD00, 0x35)
      ∧ build_ext_id 0x12 0xFD00 0x35 < 2 ^ 29 :=
  c4_encode_decode_roundtrip 0x12 0xFD00 0x35 (by norm_num) (by norm_num)
    (by norm_num)

/-! ### Claim C3 -/

/-- C3 counterexample: build_ext_id does not mask id8 to 8 bits. At
mode = 0, data16 = 0, id8 = 0x100 the claimed equality
`build_ext_id mode data16 id8 = build_ext_id (mode &&& 0x1F) data16 (id8 &&& 0xFF)`
fails: the left side is 0x100 and the right side is 0. -/
theorem c3_counterexample :
    build_ext_id 0 0 0x100 ≠ build_ext_id (0 &&& 0x1F) 0 (0x100 &&& 0xFF) := by
  decide

/-- C3 amended: build_ext_id never fails and silently truncates only the
mode to 5 bits: encoding any mode equals encoding `mode &&& 0x1F`, and in
particular mode 0x25 behaves identically to mode 0x05; `data16` and `id8`
are not masked, so out-of-range bits of those inputs spill into higher
identifier fields. -/
theorem c3_mode_masked (mode data16 id8 : Nat) :
    build_ext_id mode data16 id8 = build_ext_id (mode &&& 0x1F) data16 id8
      ∧ build_ext_id 0x25 data16 id8 = build_ext_id 0x05 data16 id8 := by
  constructor
  · simp [build_ext_id, Nat.and_assoc]
  · have h : (0x25 : Nat) &&& 0x1F = 0x05 &&& 0x1F := by decide
    simp only [build_ext_id, h]

/-! ### Claim C2 -/

/-- C2 counterexample: a main.py scan with no qualifying reply does not
preserve the session's current-address state. With prior
last_found_id = 0x10 and an empty receive window, the post-scan session
value is the sentinel 0xFF, not 0x10. -/
theorem c2_counterexample :
    scan_ids_main 0x10 [] ≠ 0x10 ∧ main_reports_not_found 0x10 [] = true := by
  decide

/-- C2 amended: when no qualifying GET_ID reply arrives before the
receive window closes, move.py's scan leaves the session current_id at
its pre-scan value and reports not-found (found_this_scan stays false),
whereas main.py's scan ends with last_found_id equal to the sentinel
0xFF regardless of the value it held before the scan (the session global
is reset at window start), and also reports not-found. -/
theorem c2_no_reply_behaviour (init prior : Nat) (rxs : List (Option RxMsg))
    (h : ∀ x ∈ rxs, qual_addr x = none) :
    scan_ids_move init rxs = ⟨init, false⟩
      ∧ scan_ids_main prior rxs = 0xFF
      ∧ main_reports_not_found prior rxs = true := by
  have hf : rxs.filterMap qual_addr = [] := by
    rw [List.filterMap_eq_nil_iff]
    exact h
  refine ⟨?_, ?_, ?_⟩
  · rw [scan_ids_move, scan_fold_move, hf]
    rfl
  · rw [scan_ids_main, scan_fold_main, hf]
    rfl
  · rw [main_reports_not_found, scan_ids_main, scan_fold_main, hf]
    rfl

theorem c2_witness :
    scan_ids_move 0x12 [none, some ⟨0x10FE, true, 7⟩] = ⟨0x12, false⟩
      ∧ scan_ids_main 0x10 [none, some ⟨0x10FE, true, 7⟩] = 0xFF
      ∧ main_reports_not_found 0x10 [none, some ⟨0x10FE, true, 7⟩] = true :=
  c2_no_reply_behaviour 0x12 0x10 [none, some ⟨0x10FE, true, 7⟩] (by decide)

/-! ### Claim C5 -/

/-- C5: during a scan, a received frame is treated as a valid GET_ID
reply iff it has an extended identifier, exactly 8 payload bytes,
decoded mode COMM_GET_ID and decoded id8 equal to RESP_MARKER; a
qualifying frame records the discovered address data16 &&& 0xFF in both
scan loops, and any frame failing one of the conditions, as well as a
receive timeout, leaves the scan result unchanged. -/
theorem c5_reply_classification (st : MoveScanState) (v : Nat) (m : RxMsg) :
    (is_valid_get_id_reply m = true ↔
      m.is_extended_id = true ∧ m.dlc = 8
        ∧ decode_mode m.arbitration_id = COMM_GET_ID
        ∧ decode_id8 m.arbitration_id = RESP_MARKER)
      ∧ (is_valid_get_id_reply m = true →
          scan_step_move st (some m) = ⟨reply_addr m, true⟩
            ∧ scan_step_main v (some m) = reply_addr m)
      ∧ (is_valid_get_id_reply m = false →
          scan_step_move st (some m) = st ∧ scan_step_main v (some m) = v)
      ∧ scan_step_move st none = st ∧ scan_step_main v none = v := by
  refine ⟨?_, ?_, ?_, rfl, rfl⟩
  · simp [is_valid_get_id_reply, and_assoc]
  · intro h
    rw [scan_step_move_eq, scan_step_main_eq]
    simp [qual_addr, h]
  · intro h
    rw [scan_step_move_eq, scan_step_main_eq]
    simp [qual_addr, h]

theorem c5_witness :
    scan_step_move ⟨0x7F, false⟩ (some ⟨0x10FE, true, 8⟩) = ⟨0x10, true⟩
      ∧ scan_step_move ⟨0x7F, false⟩ (some ⟨0x10FE, true, 7⟩) = ⟨0x7F, false⟩ := by
  have h1 :=
    (c5_reply_classification ⟨0x7F, false⟩ 0xFF ⟨0x10FE, true, 8⟩).2.1 (by decide)
  have h2 :=
    (c5_reply_classification ⟨0x7F, false⟩ 0xFF ⟨0x10FE, true, 7⟩).2.2.1 (by decide)
  exact ⟨h1.1.trans (by decide), h2.1⟩

/-! ### Claim C6 -/

/-- C6: when at least one qualifying GET_ID reply arrives within one
window, the session's current address after move.py's scan equals the
discovered address of the most recently received qualifying reply (last
write wins) and the found flag is set; the scan state retains only that
single address, not a list of earlier responders. -/
theorem c6_last_write_wins (init a : Nat) (rxs : List (Option RxMsg))
    (h : (rxs.filterMap qual_addr).getLast? = some a) :
    scan_ids_move init rxs = ⟨a, true⟩ := by
  rw [scan_ids_move, scan_fold_move]
  have h1 : (rxs.filterMap qual_addr).getLastD init = a := by
    rw [List.getLastD_eq_getLast?, h]
    rfl
  have h2 : (rxs.filterMap qual_addr).isEmpty = false := by
    cases hl : rxs.filterMap qual_addr with
    | nil => rw [hl] at h; simp at h
    | cons y ys => rfl
  rw [h1, h2]
  rfl

theorem c6_witness :
    scan_ids_move 0x7F [some ⟨0x10FE, true, 8⟩, none, some ⟨0x22FE, true, 8⟩] =
      ⟨0x22, true⟩ :=
  c6_last_write_wins 0x7F 0x22 [some ⟨0x10FE, true, 8⟩, none, some ⟨0x22FE, true, 8⟩]
    (by decide)

/-! ### Claim C10 -/

/-- C10: the scanners store the discovered address data16 &&& 0xFF into
the session without restricting it to the DeviceAddress range [0,127]:
a qualifying reply whose data16 low byte exceeds 0x7F makes that full
8-bit value the session's current address, and when the low byte is
0xFF, main.py's scan ends at the not-found sentinel and reports
not-found even though a qualifying reply was received. -/
theorem c10_unrestricted_address (st : MoveScanState) (prior : Nat) (m : RxMsg)
    (hq : is_valid_get_id_reply m = true) (_hv : 0x7F < reply_addr m) :
    (scan_step_move st (some m)).current_id = reply_addr m
      ∧ (reply_addr m = 0xFF →
          scan_ids_main prior [some m] = 0xFF
            ∧ main_reports_not_found prior [some m] = true) := by
  constructor
  · rw [scan_step_move_eq]
    simp [qual_addr, hq]
  · intro hff
    have h1 : scan_ids_main prior [some m] = 0xFF := by
      rw [scan_ids_main, List.foldl_cons, List.foldl_nil, scan_step_main_eq]
      simp [qual_addr, hq, hff]
    refine ⟨h1, ?_⟩
    rw [main_reports_not_found, h1]
    rfl

theorem c10_witness :
    (scan_step_move ⟨0x7F, false⟩ (some ⟨0xFFFE, true, 8⟩)).current_id = 0xFF
      ∧ scan_ids_main 0x10 [some ⟨0xFFFE, true, 8⟩] = 0xFF
      ∧ main_reports_not_found 0x10 [some ⟨0xFFFE, true, 8⟩] = true := by
  have h := c10_unrestricted_address ⟨0x7F, false⟩ 0x10 ⟨0xFFFE, true, 8⟩
    (by decide) (by decide)
  have h2 := h.2 (by decide)
  exact ⟨h.1.trans (by decide), h2.1, h2.2⟩

/-! ### Claim C1 -/

/-- C1: for every input angle in degrees, csp_move_deg builds and sends
exactly four frames in this fixed order: a WRITE_ONE byte frame setting
IDX_runmode to 5, a WRITE_ONE float frame carrying the session's current
velocity limit to IDX_limit_spd, a RUN_ENABLE frame, and a WRITE_ONE
float frame carrying degrees * pi / 180 radians to IDX_loc_ref; every
one of the four frames has id8 equal to the session's current device
address. -/
theorem c1_csp_move_deg_frames (outcome : Nat → Bool) (s : Session) (deg : ℚ)
    (h : s.current_id < 256) :
    ∃ f1 f2 f3 f4 : TxMsg,
      sent_frames (csp_move_deg outcome s deg).1 = [f1, f2, f3, f4]
        ∧ decode_mode f1.arbitration_id = COMM_WRITE_ONE
        ∧ f1.data.index = some IDX_runmode
        ∧ f1.data.u8val = some 5
        ∧ decode_mode f2.arbitration_id = COMM_WRITE_ONE
        ∧ f2.data.index = some IDX_limit_spd
        ∧ f2.data.fval = some s.limit_spd
        ∧ decode_mode f3.arbitration_id = COMM_RUN_EN
        ∧ f3.data = .zeros8
        ∧ decode_mode f4.arbitration_id = COMM_WRITE_ONE
        ∧ f4.data.index = some IDX_loc_ref
        ∧ f4.data.fval = some (deg * math_pi / 180)
        ∧ ∀ f ∈ [f1, f2, f3, f4], decode_id8 f.arbitration_id = s.current_id := by
  refine ⟨write_param_u8_frame IDX_runmode 5 s.current_id,
    write_param_f_frame IDX_limit_spd s.limit_spd s.current_id,
    enable_frame s.current_id,
    write_param_f_frame IDX_loc_ref (deg * math_pi / 180) s.current_id,
    rfl, ?_, rfl, rfl, ?_, rfl, rfl, ?_, rfl, ?_, rfl, rfl, ?_⟩
  · exact (decode_frame_fields COMM_WRITE_ONE _ _ (by decide) (by decide) h).1
  · exact (decode_frame_fields COMM_WRITE_ONE _ _ (by decide) (by decide) h).1
  · exact (decode_frame_fields COMM_RUN_EN _ _ (by decide) (by decide) h).1
  · exact (decode_frame_fields COMM_WRITE_ONE _ _ (by decide) (by decide) h).1
  · intro f hf
    simp only [List.mem_cons, List.not_mem_nil, or_false] at hf
    rcases hf with h1 | h1 | h1 | h1 <;> subst h1 <;>
      exact (decode_frame_fields _ _ _ (by decide) (by decide) h).2.2

theorem c1_witness :
    (sent_frames (csp_move_deg (fun _ => true) ⟨0x12, 10⟩ 90).1).length = 4 := by
  obtain ⟨f1, f2, f3, f4, hfs, -⟩ :=
    c1_csp_move_deg_frames (fun _ => true) ⟨0x12, 10⟩ 90 (by norm_num)
  rw [hfs]
  rfl

/-! ### Claim C7 -/

/-- C7: the result of csp_move_deg is the logical AND of the send
outcomes of its four frames, and a failed send does not abort the
sequence: the event trace, and hence the four attempted frames, is the
same for every combination of per-frame outcomes, and the aggregate is
true iff all four sends succeeded. -/
theorem c7_aggregate_and_no_abort (outcome : Nat → Bool) (s : Session) (deg : ℚ) :
    (csp_move_deg outcome s deg).1 = (csp_move_deg (fun _ => true) s deg).1
      ∧ (sent_frames (csp_move_deg outcome s deg).1).length = 4
      ∧ ((csp_move_deg outcome s deg).2 = true ↔
          outcome 0 = true ∧ outcome 1 = true ∧ outcome 2 = true
            ∧ outcome 3 = true) := by
  refine ⟨rfl, rfl, ?_⟩
  simp [csp_move_deg, and_assoc]

/-! ### Claim C9 -/

/-- C9: the L command clamps a negative input to 0, sends exactly one
WRITE_ONE float frame carrying the clamped value to IDX_limit_spd
addressed to the session's current device id, persists the clamped value
into the session exactly when the transport send succeeds (the session is
unchanged on a failed send), and reports the send outcome directly. -/
theorem c9_set_velocity_limit (sendOk : Bool) (s : Session) (v : ℚ)
    (h : s.current_id < 256) :
    (∃ f : TxMsg,
        (set_velocity_limit sendOk s v).2.1 = [f]
          ∧ decode_mode f.arbitration_id = COMM_WRITE_ONE
          ∧ f.data.index = some IDX_limit_spd
          ∧ f.data.fval = some (if v < 0 then 0 else v)
          ∧ decode_id8 f.arbitration_id = s.current_id)
      ∧ (sendOk = true →
          (set_velocity_limit sendOk s v).1 =
            { s with limit_spd := if v < 0 then 0 else v })
      ∧ (sendOk = false → (set_velocity_limit sendOk s v).1 = s)
      ∧ (set_velocity_limit sendOk s v).2.2 = sendOk := by
  refine ⟨⟨write_param_f_frame IDX_limit_spd (if v < 0 then 0 else v) s.current_id,
    ?_, ?_, rfl, rfl, ?_⟩, ?_, ?_, ?_⟩
  · cases sendOk <;> rfl
  · exact (decode_frame_fields COMM_WRITE_ONE _ _ (by decide) (by decide) h).1
  · exact (decode_frame_fields COMM_WRITE_ONE _ _ (by decide) (by decide) h).2.2
  · intro hs; subst hs; rfl
  · intro hs; subst hs; rfl
  · cases sendOk <;> rfl

theorem c9_witness :
    (set_velocity_limit true ⟨0x12, 10⟩ (-3)).1 = ⟨0x12, 0⟩ := by
  have h := (c9_set_velocity_limit true ⟨0x12, 10⟩ (-3) (by norm_num)).2.1 rfl
  rw [h]
  norm_num

/-! ### Claim C8 -/

/-- C8: the S command with a new address outside [0,127] fails validation
and sends zero frames; with the session address equal to the not-found
sentinel it fails the scan-first precondition and sends zero frames;
otherwise it sends exactly one SET_ID frame (mode COMM_SET_ID,
data16 = (new_address << 8) | MASTER_ID, id8 = the current session
address), and exactly on transport send success the send is followed by
a 50 ms wait and a fresh discovery scan. -/
theorem c8_set_device_address (sendOk : Bool) (last : Nat) (new : Int)
    (hl : last < 256) :
    ((new < 0 ∨ 127 < new) → set_device_address sendOk last new = (.rangeError, []))
      ∧ (0 ≤ new → new ≤ 127 → last = 0xFF →
          set_device_address sendOk last new = (.needScanError, []))
      ∧ (0 ≤ new → new ≤ 127 → last ≠ 0xFF →
          ∃ f : TxMsg,
            sent_frames (set_device_address sendOk last new).2 = [f]
              ∧ decode_mode f.arbitration_id = COMM_SET_ID
              ∧ decode_data16 f.arbitration_id = (new.toNat <<< 8) ||| MASTER_ID
              ∧ decode_id8 f.arbitration_id = last
              ∧ (sendOk = true →
                  (set_device_address sendOk last new).2 =
                    [.send f, .sleepMs 50, .rescan])
              ∧ (sendOk = false →
                  (set_device_address sendOk last new).2 = [.send f])) := by
  refine ⟨?_, ?_, ?_⟩
  · intro h
    simp only [set_device_address]
    rw [if_pos h]
  · intro h0 h1 h2
    simp only [set_device_address]
    rw [if_neg (by omega), if_pos h2]
  · intro h0 h1 h2
    have hb : (new.toNat <<< 8) ||| MASTER_ID < 65536 := by
      have ht : new.toNat ≤ 127 := by omega
      rw [shiftLeft_lor_eq_add new.toNat MASTER_ID 8 (by decide)]
      simp only [MASTER_ID]
      norm_num
      omega
    have hfields := decode_frame_fields COMM_SET_ID ((new.toNat <<< 8) ||| MASTER_ID)
      last (by decide) hb hl
    refine ⟨set_id_frame last new.toNat, ?_, hfields.1, hfields.2.1, hfields.2.2,
      ?_, ?_⟩
    · simp only [set_device_address]
      rw [if_neg (by omega), if_neg h2]
      cases sendOk <;> rfl
    · intro hs; subst hs
      simp only [set_device_address]
      rw [if_neg (by omega), if_neg h2]
      rfl
    · intro hs; subst hs
      simp only [set_device_address]
      rw [if_neg (by omega), if_neg h2]
      rfl

theorem c8_witness :
    ∃ f : TxMsg,
      sent_frames (set_device_address true 0x12 0x3B).2 = [f]
        ∧ decode_id8 f.arbitration_id = 0x12
        ∧ (set_device_address true 0x12 0x3B).2 = [.send f, .sleepMs 50, .rescan] := by
  obtain ⟨f, hf1, -, -, hf4, hf5, -⟩ :=
    (c8_set_device_address true 0x12 0x3B (by norm_num)).2.2 (by norm_num)
      (by norm_num) (by norm_num)
  exact ⟨f, hf1, hf4, hf5 rfl⟩

end RS05
